import Mathlib

/-!
Verification of the Gemini-Quizzify quiz-generation core.

The development shallowly embeds the quiz pipeline of `quiz_generator.py`
(class `QuizGenerator`: construction, `generate_question_with_vectorstore`,
`generate_quiz`, `validate_question`) and the navigation arithmetic of
`quiz_manager.py` (class `QuizManager`: `get_question_at_index`,
`next_question_index`).

Modelling conventions:
- Decoded JSON values (the result of `json.loads`) are the inductive type
  `JsonVal`; an object is an association list with distinct keys, and value
  equality `jsonBeq` is structural, mirroring `==` on decoded JSON values.
- Exceptions are explicit `Except PyError` results: `ValueError` (raised at
  construction for more than 10 questions, and by
  `generate_question_with_vectorstore` when no vectorstore is bound),
  `KeyError` (subscripting a dict with a missing key) and `TypeError`
  (subscripting a non-dict value with a string key).
- The generation backend (the retrieval chain plus the LLM call) is a
  parameter `backend : Nat → ParseResult` giving, for the k-th invocation of
  the chain, the outcome of `json.loads` on its raw response: either a
  decode failure (`malformed`, the `json.JSONDecodeError` branch) or a
  decoded `JsonVal`.  Raw text and the JSON parser itself are outside the
  embedded core; `generate_quiz` only ever inspects the decoded result.
-/

/-- Decoded JSON value, the result of Python `json.loads`: null, booleans,
numbers (the quiz pipeline never produces non-integer literals, so numbers
are integers here), strings, arrays, and objects as association lists whose
keys are distinct. -/
inductive JsonVal : Type where
  | null : JsonVal
  | bool (b : Bool) : JsonVal
  | num (n : Int) : JsonVal
  | str (s : String) : JsonVal
  | arr (items : List JsonVal) : JsonVal
  | obj (fields : List (String × JsonVal)) : JsonVal
  deriving Repr

mutual

/-- Structural equality of decoded JSON values, mirroring Python `==` on the
results of `json.loads`. -/
def jsonBeq : JsonVal → JsonVal → Bool
  | .null, .null => true
  | .bool a, .bool c => a == c
  | .num a, .num c => a == c
  | .str a, .str c => a == c
  | .arr xs, .arr ys => jsonBeqList xs ys
  | .obj xs, .obj ys => jsonBeqObj xs ys
  | _, _ => false

/-- Elementwise equality of JSON arrays. -/
def jsonBeqList : List JsonVal → List JsonVal → Bool
  | [], [] => true
  | x :: xs, y :: ys => jsonBeq x y && jsonBeqList xs ys
  | _, _ => false

/-- Fieldwise equality of JSON objects. -/
def jsonBeqObj : List (String × JsonVal) → List (String × JsonVal) → Bool
  | [], [] => true
  | (k, v) :: xs, (l, w) :: ys => k == l && jsonBeq v w && jsonBeqObj xs ys
  | _, _ => false

end

mutual

theorem jsonBeq_refl : ∀ a : JsonVal, jsonBeq a a = true
  | .null => rfl
  | .bool a => by simp [jsonBeq]
  | .num a => by simp [jsonBeq]
  | .str a => by simp [jsonBeq]
  | .arr xs => jsonBeqList_refl xs
  | .obj xs => jsonBeqObj_refl xs

theorem jsonBeqList_refl : ∀ xs : List JsonVal, jsonBeq (.arr xs) (.arr xs) = true
  | [] => rfl
  | x :: xs => by
      have h1 := jsonBeq_refl x
      have h2 := jsonBeqList_refl xs
      simp only [jsonBeq, jsonBeqList] at *
      simp [h1, h2]

theorem jsonBeqObj_refl : ∀ xs : List (String × JsonVal), jsonBeq (.obj xs) (.obj xs) = true
  | [] => rfl
  | (k, v) :: xs => by
      have h1 := jsonBeq_refl v
      have h2 := jsonBeqObj_refl xs
      simp only [jsonBeq, jsonBeqObj] at *
      simp [h1, h2]

end

mutual

theorem jsonBeq_eq : ∀ a b : JsonVal, jsonBeq a b = true → a = b
  | .null, b => by cases b <;> simp [jsonBeq]
  | .bool a, b => by cases b <;> simp_all [jsonBeq]
  | .num a, b => by cases b <;> simp_all [jsonBeq]
  | .str a, b => by cases b <;> simp_all [jsonBeq]
  | .arr xs, .arr ys => fun h => jsonBeqList_eq xs ys h
  | .arr xs, .null => by simp [jsonBeq]
  | .arr xs, .bool c => by simp [jsonBeq]
  | .arr xs, .num c => by simp [jsonBeq]
  | .arr xs, .str c => by simp [jsonBeq]
  | .arr xs, .obj ys => by simp [jsonBeq]
  | .obj xs, .obj ys => fun h => jsonBeqObj_eq xs ys h
  | .obj xs, .null => by simp [jsonBeq]
  | .obj xs, .bool c => by simp [jsonBeq]
  | .obj xs, .num c => by simp [jsonBeq]
  | .obj xs, .str c => by simp [jsonBeq]
  | .obj xs, .arr ys => by simp [jsonBeq]

theorem jsonBeqList_eq : ∀ xs ys : List JsonVal,
    jsonBeq (.arr xs) (.arr ys) = true → JsonVal.arr xs = .arr ys
  | [], [] => fun _ => rfl
  | [], _ :: _ => by simp [jsonBeq, jsonBeqList]
  | _ :: _, [] => by simp [jsonBeq, jsonBeqList]
  | x :: xs, y :: ys => by
      simp only [jsonBeq, jsonBeqList, Bool.and_eq_true]
      rintro ⟨h1, h2⟩
      have e1 := jsonBeq_eq x y h1
      have e2 := jsonBeqList_eq xs ys h2
      simp only [jsonBeq] at e2
      simp [e1, JsonVal.arr.injEq] at e2 ⊢
      exact e2

theorem jsonBeqObj_eq : ∀ xs ys : List (String × JsonVal),
    jsonBeq (.obj xs) (.obj ys) = true → JsonVal.obj xs = .obj ys
  | [], [] => fun _ => rfl
  | [], _ :: _ => by simp [jsonBeq, jsonBeqObj]
  | _ :: _, [] => by simp [jsonBeq, jsonBeqObj]
  | (k, v) :: xs, (l, w) :: ys => by
      simp only [jsonBeq, jsonBeqObj, Bool.and_eq_true, beq_iff_eq]
      rintro ⟨⟨hk, h1⟩, h2⟩
      have e1 := jsonBeq_eq v w h1
      have e2 := jsonBeqObj_eq xs ys h2
      simp only [jsonBeq] at e2
      simp [hk, e1, JsonVal.obj.injEq] at e2 ⊢
      exact e2

end

theorem jsonBeq_iff_eq (a b : JsonVal) : jsonBeq a b = true ↔ a = b :=
  ⟨jsonBeq_eq a b, fun h => h ▸ jsonBeq_refl a⟩

instance : DecidableEq JsonVal := fun a b =>
  decidable_of_iff (jsonBeq a b = true) (jsonBeq_iff_eq a b)

theorem jsonBeq_false_ne {a b : JsonVal} (h : jsonBeq a b = false) : a ≠ b := by
  intro he
  rw [he, jsonBeq_refl] at h
  cases h

/-- Python truthiness of a decoded JSON value, as tested by
`if question and ...` and `if not question_text` in `quiz_generator.py`:
`None`, `False`, `0`, the empty string, the empty list and the empty dict
are falsy, everything else truthy. -/
def truthy : JsonVal → Bool
  | .null => false
  | .bool b => b
  | .num n => n != 0
  | .str s => s != ""
  | .arr items => !items.isEmpty
  | .obj fields => !fields.isEmpty

/-- Lookup of a key in the fields of a JSON object (Python `dict` access on a
dict decoded from JSON, whose keys are distinct). -/
def lookupField : List (String × JsonVal) → String → Option JsonVal
  | [], _ => none
  | (k, v) :: rest, key => if k = key then some v else lookupField rest key

/-- Python exceptions surfaced by the embedded code. -/
inductive PyError : Type where
  | valueError (msg : String) : PyError
  | keyError (key : String) : PyError
  | typeError : PyError
  deriving DecidableEq, Repr

/-- Python subscription `value[key]` with a string key: a dict yields the
stored value or raises `KeyError`; any non-dict value raises `TypeError`. -/
def getItem (value : JsonVal) (key : String) : Except PyError JsonVal :=
  match value with
  | .obj fields =>
    match lookupField fields key with
    | some v => .ok v
    | none => .error (.keyError key)
  | _ => .error .typeError

/-- State of a constructed `QuizGenerator` (the instance attributes set in
`QuizGenerator.__init__` that the generation loop reads): the topic, the
requested number of questions, and whether a vectorstore was bound.  The
LLM handle and the question bank are not part of the configuration: the
bank is reset at the start of every `generate_quiz` run. -/
structure QuizGenerator : Type where
  topic : String
  num_questions : Int
  hasVectorstore : Bool
  deriving DecidableEq, Repr

namespace QuizGenerator

/-- Topic defaulting in `QuizGenerator.__init__`: a falsy topic (absent or
the empty string) becomes General Knowledge. -/
def defaultTopic : Option String → String
  | none => "General Knowledge"
  | some s => if s = "" then "General Knowledge" else s

/-- Constructor `QuizGenerator.__init__(topic, num_questions, vectorstore)`:
the topic is defaulted, and more than 10 requested questions raises
`ValueError("Number of questions cannot exceed 10.")`.  Any other count,
zero and negative counts included, is accepted. -/
def init (topic : Option String) (num_questions : Int) (hasVectorstore : Bool) :
    Except PyError QuizGenerator :=
  if num_questions > 10 then
    .error (.valueError "Number of questions cannot exceed 10.")
  else
    .ok ⟨defaultTopic topic, num_questions, hasVectorstore⟩

end QuizGenerator

/-- Outcome of `json.loads` on one raw backend response inside
`generate_quiz`: either the string was not valid JSON
(`json.JSONDecodeError`) or it decoded to a JSON value. -/
inductive ParseResult : Type where
  | malformed : ParseResult
  | parsed (value : JsonVal) : ParseResult
  deriving DecidableEq, Repr

/-- Method `QuizGenerator.generate_question_with_vectorstore` for the k-th
chain invocation of a run: with no vectorstore bound it raises
`ValueError("vectorstore not provided")` before any backend call; otherwise
it runs the retrieval-prompt-LLM chain, whose decoded outcome the `backend`
stream supplies. -/
def generate_question_with_vectorstore (gen : QuizGenerator)
    (backend : Nat → ParseResult) (call : Nat) : Except PyError ParseResult :=
  if gen.hasVectorstore then .ok (backend call)
  else .error (.valueError "vectorstore not provided")

/-- Scan of `question_bank` inside `QuizGenerator.validate_question`: walk
the whole bank, read the question text of each stored dict (raising `KeyError`
or `TypeError` exactly where Python would), and report whether no stored
text equals `question_text`.  The Python loop keeps scanning after a match,
so an exception in a later entry still fires. -/
def bankScan (question_bank : List JsonVal) (question_text : JsonVal) :
    Except PyError Bool :=
  match question_bank with
  | [] => .ok true
  | d :: rest =>
    match getItem d "question" with
    | .error e => .error e
    | .ok t =>
      match bankScan rest question_text with
      | .error e => .error e
      | .ok r => .ok (r && !(jsonBeq t question_text))

/-- Method `QuizGenerator.validate_question(question)`: read
`question["question"]` (raising `KeyError`/`TypeError` if absent), answer
`False` for a falsy text, and otherwise answer whether the text equals no
text already stored in `question_bank`.  No other field of the candidate
is inspected. -/
def validate_question (question_bank : List JsonVal) (question : JsonVal) :
    Except PyError Bool :=
  match getItem question "question" with
  | .error e => .error e
  | .ok question_text =>
    if truthy question_text then bankScan question_bank question_text
    else .ok false

/-- Inner loop of `QuizGenerator.generate_quiz` for one slot,
`for _ in range(0, 10)` with `fuel` iterations left: each iteration invokes
the chain (consuming one backend outcome and advancing the call counter),
skips a `json.JSONDecodeError`, and appends the decoded question and stops
when it is truthy and `validate_question` accepts it.  Uncaught exceptions
(missing vectorstore, `KeyError`/`TypeError` from `validate_question`)
abort the run.  The result is paired with the updated call counter. -/
def slotLoop (gen : QuizGenerator) (backend : Nat → ParseResult) :
    Nat → Nat → List JsonVal → Except PyError (List JsonVal) × Nat
  | 0, counter, bank => (.ok bank, counter)
  | fuel + 1, counter, bank =>
    match generate_question_with_vectorstore gen backend counter with
    | .error e => (.error e, counter)
    | .ok .malformed => slotLoop gen backend fuel (counter + 1) bank
    | .ok (.parsed question) =>
      if truthy question then
        match validate_question bank question with
        | .error e => (.error e, counter + 1)
        | .ok true => (.ok (bank ++ [question]), counter + 1)
        | .ok false => slotLoop gen backend fuel (counter + 1) bank
      else slotLoop gen backend fuel (counter + 1) bank

/-- Outer loop of `QuizGenerator.generate_quiz`,
`for _ in range(self.num_questions)` with `slots` slots left: each slot
runs its 10-attempt inner loop over the shared bank; an uncaught exception
aborts the remaining slots. -/
def quizLoop (gen : QuizGenerator) (backend : Nat → ParseResult) :
    Nat → Nat → List JsonVal → Except PyError (List JsonVal) × Nat
  | 0, counter, bank => (.ok bank, counter)
  | slots + 1, counter, bank =>
    match slotLoop gen backend 10 counter bank with
    | (.ok bank2, c2) => quizLoop gen backend slots c2 bank2
    | (.error e, c2) => (.error e, c2)

/-- Method `QuizGenerator.generate_quiz()`: reset the bank, fill
`num_questions` slots (none for a zero or negative count, since Python
`range` is then empty) with at most 10 chain invocations each, and return
the accumulated bank, or the first uncaught exception. -/
def generate_quiz (gen : QuizGenerator) (backend : Nat → ParseResult) :
    Except PyError (List JsonVal) :=
  (quizLoop gen backend gen.num_questions.toNat 0 []).1

/-- Number of chain invocations (retrieval plus LLM round trips) a
`generate_quiz` run performs against the backend. -/
def generate_quiz_calls (gen : QuizGenerator) (backend : Nat → ParseResult) :
    Nat :=
  (quizLoop gen backend gen.num_questions.toNat 0 []).2

namespace QuizManager

/-- Index arithmetic of `QuizManager`: the reduced index `index mod total`
used by `get_question_at_index` (`valid_index = index % self.total_questions`);
Python `%` on integers is Euclidean remainder, matching `Int.emod`. -/
def index_at (requested_index : Int) (total : Int) : Int :=
  requested_index % total

/-- Method `QuizManager.get_question_at_index(index)` over a bank
`questions` (with `total_questions = len(questions)`): reduce the index
modulo the total and return that question; an empty bank raises
`ZeroDivisionError` on the modulo, modelled as `none`. -/
def get_question_at_index (questions : List JsonVal) (index : Int) :
    Option JsonVal :=
  if questions.length = 0 then none
  else questions.get? (index_at index (questions.length : Int)).toNat

/-- Arithmetic core of `QuizManager.next_question_index(direction)` over a
bank of `total_questions` questions: the new session index
`(current_question_index + direction) % self.total_questions`. -/
def next_question_index (total_questions : Int) (current_question_index : Int)
    (direction : Int) : Int :=
  (current_question_index + direction) % total_questions

end QuizManager

/-- Keys of the entries of a decoded `choices` array: the `key` field of
each choice that is a dict with a string `key`. -/
def choiceKeys (choices : List JsonVal) : List String :=
  choices.filterMap fun c =>
    match c with
    | .obj fields =>
      match lookupField fields "key" with
      | some (.str k) => some k
      | _ => none
    | _ => none

/-- Modelled from the spec: full well-formedness of a stored question as
claimed for the bank invariant (spec section 3 and section 8) — a dict
whose `choices` field has exactly 4 entries with keys exactly A, B, C, D
and no repeats, whose `answer` is one of those 4 keys, and whose
`question` and `explanation` are non-empty strings.  `generate_quiz`
itself contains no such check; this definition states the claimed
property, to be compared with what the code enforces. -/
def specWellFormedQuestion (q : JsonVal) : Bool :=
  match q with
  | .obj fields =>
    (match lookupField fields "question" with
     | some (.str s) => s != ""
     | _ => false) &&
    (match lookupField fields "explanation" with
     | some (.str s) => s != ""
     | _ => false) &&
    (match lookupField fields "choices" with
     | some (.arr cs) =>
       cs.length == 4 && (choiceKeys cs).length == 4 &&
       (["A", "B", "C", "D"].all fun k => (choiceKeys cs).contains k) &&
       (match lookupField fields "answer" with
        | some (.str a) => (choiceKeys cs).contains a
        | _ => false)
     | _ => false)
  | _ => false

/-- A bank entry as `validate_question` leaves it: a dict whose
`question` field exists and holds a truthy value. -/
def goodEntry (q : JsonVal) : Bool :=
  match getItem q "question" with
  | .ok t => truthy t
  | .error _ => false

/-- The `question` field of a stored question, when reading it would not
raise. -/
def qtext (q : JsonVal) : Option JsonVal :=
  match getItem q "question" with
  | .ok t => some t
  | .error _ => none

theorem bankScan_ok_true {qt : JsonVal} {bank : List JsonVal}
    (h : bankScan bank qt = .ok true) :
    ∀ d ∈ bank, ∃ td, getItem d "question" = .ok td ∧ td ≠ qt := by
  induction bank with
  | nil => intro d hd; simp at hd
  | cons d0 rest ih =>
    rw [bankScan] at h
    cases hg : getItem d0 "question" with
    | error e => rw [hg] at h; simp at h
    | ok t =>
      rw [hg] at h
      cases hs : bankScan rest qt with
      | error e => rw [hs] at h; simp at h
      | ok r =>
        rw [hs] at h
        simp only [Except.ok.injEq, Bool.and_eq_true, Bool.not_eq_eq_eq_not,
          Bool.not_true] at h
        intro d hd
        rcases List.mem_cons.mp hd with rfl | hmem
        · exact ⟨t, hg, jsonBeq_false_ne h.2⟩
        · exact ih (h.1 ▸ hs) d hmem

theorem bankScan_ok_of {qt : JsonVal} {bank : List JsonVal}
    (hall : ∀ d ∈ bank, ∃ td, getItem d "question" = .ok td ∧ td ≠ qt) :
    bankScan bank qt = .ok true := by
  induction bank with
  | nil => rfl
  | cons d0 rest ih =>
    obtain ⟨t, hg, hne⟩ := hall d0 (List.mem_cons_self d0 rest)
    rw [bankScan, hg, ih (fun d hd => hall d (List.mem_cons_of_mem d0 hd))]
    have : jsonBeq t qt = false := by
      cases hb : jsonBeq t qt
      · rfl
      · exact absurd (jsonBeq_eq t qt hb) hne
    simp [this]

theorem bankScan_isOk {qt : JsonVal} {bank : List JsonVal}
    (hall : ∀ d ∈ bank, ∃ td, getItem d "question" = .ok td) :
    ∃ b, bankScan bank qt = .ok b := by
  induction bank with
  | nil => exact ⟨true, rfl⟩
  | cons d0 rest ih =>
    obtain ⟨t, hg⟩ := hall d0 (List.mem_cons_self d0 rest)
    obtain ⟨b, hb⟩ := ih (fun d hd => hall d (List.mem_cons_of_mem d0 hd))
    exact ⟨b && !(jsonBeq t qt), by rw [bankScan, hg, hb]⟩

theorem validate_question_ok_true {bank : List JsonVal} {q : JsonVal}
    (h : validate_question bank q = .ok true) :
    ∃ t, getItem q "question" = .ok t ∧ truthy t = true ∧
      ∀ d ∈ bank, ∃ td, getItem d "question" = .ok td ∧ td ≠ t := by
  unfold validate_question at h
  split at h
  · simp at h
  · rename_i t hg
    split at h
    · rename_i ht
      exact ⟨t, hg, ht, bankScan_ok_true h⟩
    · simp at h

theorem goodEntry_of_validate {bank : List JsonVal} {q : JsonVal}
    (h : validate_question bank q = .ok true) : goodEntry q = true := by
  obtain ⟨t, hg, ht, _⟩ := validate_question_ok_true h
  unfold goodEntry
  rw [hg]
  exact ht

theorem qtext_ne_of_validate {bank : List JsonVal} {q : JsonVal}
    (h : validate_question bank q = .ok true) :
    ∀ d ∈ bank, qtext d ≠ qtext q := by
  obtain ⟨t, hg, _, hall⟩ := validate_question_ok_true h
  intro d hd
  obtain ⟨td, hgd, hne⟩ := hall d hd
  unfold qtext
  rw [hg, hgd]
  simp [hne]

theorem validate_question_isOk {bank : List JsonVal} {q : JsonVal} {t : JsonVal}
    (hbank : ∀ d ∈ bank, goodEntry d = true)
    (hq : getItem q "question" = .ok t) :
    ∃ b, validate_question bank q = .ok b := by
  unfold validate_question
  rw [hq]
  show ∃ b, (if truthy t = true then bankScan bank t else Except.ok false) = Except.ok b
  cases ht : truthy t with
  | false => exact ⟨false, by simp⟩
  | true =>
    simp only [if_true]
    refine bankScan_isOk fun d hd => ?_
    have hgood := hbank d hd
    unfold goodEntry at hgood
    cases hgd : getItem d "question" with
    | error e => rw [hgd] at hgood; cases hgood
    | ok td => exact ⟨td, rfl⟩

/-- Backend outputs that the retry loop of `generate_quiz` digests without
an uncaught exception: a decode failure, a falsy decoded value, or a dict
carrying a question key (duplicate or otherwise). -/
def benignOutput : ParseResult → Bool
  | .malformed => true
  | .parsed v =>
    !truthy v ||
      (match getItem v "question" with
       | .ok _ => true
       | .error _ => false)

theorem slotLoop_counter (gen : QuizGenerator) (backend : Nat → ParseResult) :
    ∀ (fuel counter : Nat) (bank : List JsonVal) (res : Except PyError (List JsonVal)) (c2 : Nat),
      slotLoop gen backend fuel counter bank = (res, c2) → c2 ≤ counter + fuel := by
  intro fuel
  induction fuel with
  | zero =>
    intro counter bank res c2 h
    rw [slotLoop] at h
    simp only [Prod.mk.injEq] at h
    omega
  | succ fuel ih =>
    intro counter bank res c2 h
    rw [slotLoop] at h
    split at h
    · simp only [Prod.mk.injEq] at h; omega
    · have := ih (counter + 1) bank res c2 h; omega
    · split at h
      · split at h
        · simp only [Prod.mk.injEq] at h; omega
        · simp only [Prod.mk.injEq] at h; omega
        · have := ih (counter + 1) bank res c2 h; omega
      · have := ih (counter + 1) bank res c2 h; omega

theorem quizLoop_counter (gen : QuizGenerator) (backend : Nat → ParseResult) :
    ∀ (slots counter : Nat) (bank : List JsonVal) (res : Except PyError (List JsonVal)) (c2 : Nat),
      quizLoop gen backend slots counter bank = (res, c2) → c2 ≤ counter + 10 * slots := by
  intro slots
  induction slots with
  | zero =>
    intro counter bank res c2 h
    rw [quizLoop] at h
    simp only [Prod.mk.injEq] at h
    omega
  | succ slots ih =>
    intro counter bank res c2 h
    rw [quizLoop] at h
    split at h
    · rename_i bankm cm heq
      have h1 := slotLoop_counter gen backend 10 counter bank _ _ heq
      have h2 := ih cm bankm res c2 h
      omega
    · rename_i e cm heq
      have h1 := slotLoop_counter gen backend 10 counter bank _ _ heq
      simp only [Prod.mk.injEq] at h
      omega

theorem slotLoop_ok (gen : QuizGenerator) (backend : Nat → ParseResult) :
    ∀ (fuel counter : Nat) (bank bank2 : List JsonVal) (c2 : Nat),
      slotLoop gen backend fuel counter bank = (.ok bank2, c2) →
      bank2 = bank ∨
        ∃ v, bank2 = bank ++ [v] ∧ goodEntry v = true ∧
          ∀ d ∈ bank, qtext d ≠ qtext v := by
  intro fuel
  induction fuel with
  | zero =>
    intro counter bank bank2 c2 h
    rw [slotLoop] at h
    simp only [Prod.mk.injEq, Except.ok.injEq] at h
    exact Or.inl h.1.symm
  | succ fuel ih =>
    intro counter bank bank2 c2 h
    rw [slotLoop] at h
    split at h
    · simp at h
    · exact ih (counter + 1) bank bank2 c2 h
    · split at h
      · split at h
        · simp at h
        · rename_i hv
          simp only [Prod.mk.injEq, Except.ok.injEq] at h
          exact Or.inr ⟨_, h.1.symm, goodEntry_of_validate hv,
            qtext_ne_of_validate hv⟩
        · exact ih (counter + 1) bank bank2 c2 h
      · exact ih (counter + 1) bank bank2 c2 h

theorem slotLoop_noerror (gen : QuizGenerator) (backend : Nat → ParseResult)
    (hvs : gen.hasVectorstore = true)
    (hben : ∀ k, benignOutput (backend k) = true)
    (bank : List JsonVal) (hbank : ∀ d ∈ bank, goodEntry d = true) :
    ∀ (fuel counter : Nat),
      ∃ bank2 c2, slotLoop gen backend fuel counter bank = (.ok bank2, c2) := by
  intro fuel
  induction fuel with
  | zero => intro counter; exact ⟨bank, counter, rfl⟩
  | succ fuel ih =>
    intro counter
    cases hbk : backend counter with
    | malformed =>
      have := ih (counter + 1)
      simpa [slotLoop, generate_question_with_vectorstore, hvs, hbk] using this
    | parsed q =>
      cases ht : truthy q with
      | false =>
        have := ih (counter + 1)
        simpa [slotLoop, generate_question_with_vectorstore, hvs, hbk, ht]
          using this
      | true =>
        obtain ⟨t, hq⟩ : ∃ t, getItem q "question" = .ok t := by
          have hb := hben counter
          rw [hbk] at hb
          simp only [benignOutput, ht, Bool.not_true, Bool.false_or] at hb
          cases hg : getItem q "question" with
          | ok t => exact ⟨t, rfl⟩
          | error e => rw [hg] at hb; cases hb
        obtain ⟨b, hvq⟩ := validate_question_isOk hbank hq
        cases b with
        | true =>
          refine ⟨bank ++ [q], counter + 1, ?_⟩
          simp [slotLoop, generate_question_with_vectorstore, hvs, hbk, ht, hvq]
        | false =>
          have := ih (counter + 1)
          simpa [slotLoop, generate_question_with_vectorstore, hvs, hbk, ht, hvq]
            using this

theorem quizLoop_inv (gen : QuizGenerator) (backend : Nat → ParseResult) :
    ∀ (slots counter : Nat) (bank bank2 : List JsonVal) (c2 : Nat),
      quizLoop gen backend slots counter bank = (.ok bank2, c2) →
      (∀ d ∈ bank, goodEntry d = true) →
      bank.Pairwise (fun a b => qtext a ≠ qtext b) →
      (∀ d ∈ bank2, goodEntry d = true) ∧
        bank2.Pairwise (fun a b => qtext a ≠ qtext b) ∧
        bank2.length ≤ bank.length + slots := by
  intro slots
  induction slots with
  | zero =>
    intro counter bank bank2 c2 h hgood hpw
    rw [quizLoop] at h
    simp only [Prod.mk.injEq, Except.ok.injEq] at h
    rcases h with ⟨rfl, -⟩
    exact ⟨hgood, hpw, Nat.le_add_right _ _⟩
  | succ slots ih =>
    intro counter bank bank2 c2 h hgood hpw
    rw [quizLoop] at h
    split at h
    · rename_i bankm cm heq
      rcases slotLoop_ok gen backend 10 counter bank bankm cm heq with rfl | hw
      · have := ih cm bankm bank2 c2 h hgood hpw
        exact ⟨this.1, this.2.1, by omega⟩
      · obtain ⟨v, rfl, hvgood, hvne⟩ := hw
        have hgood2 : ∀ d ∈ bank ++ [v], goodEntry d = true := by
          intro d hd
          rcases List.mem_append.mp hd with hd | hd
          · exact hgood d hd
          · rw [List.mem_singleton.mp hd]; exact hvgood
        have hpw2 : (bank ++ [v]).Pairwise (fun a b => qtext a ≠ qtext b) := by
          refine List.pairwise_append.mpr ⟨hpw, List.pairwise_singleton _ _, ?_⟩
          intro a ha b hb
          rw [List.mem_singleton.mp hb]
          exact hvne a ha
        have := ih cm (bank ++ [v]) bank2 c2 h hgood2 hpw2
        refine ⟨this.1, this.2.1, ?_⟩
        have hlen := this.2.2
        simp only [List.length_append, List.length_singleton] at hlen
        omega
    · simp at h

theorem quizLoop_noerror (gen : QuizGenerator) (backend : Nat → ParseResult)
    (hvs : gen.hasVectorstore = true)
    (hben : ∀ k, benignOutput (backend k) = true) :
    ∀ (slots counter : Nat) (bank : List JsonVal),
      (∀ d ∈ bank, goodEntry d = true) →
      ∃ bank2 c2, quizLoop gen backend slots counter bank = (.ok bank2, c2) := by
  intro slots
  induction slots with
  | zero => intro counter bank _; exact ⟨bank, counter, rfl⟩
  | succ slots ih =>
    intro counter bank hbank
    obtain ⟨bankm, cm, hm⟩ := slotLoop_noerror gen backend hvs hben bank hbank 10 counter
    have hgood2 : ∀ d ∈ bankm, goodEntry d = true := by
      rcases slotLoop_ok gen backend 10 counter bank bankm cm hm with rfl | hw
      · exact hbank
      · obtain ⟨v, rfl, hvgood, -⟩ := hw
        intro d hd
        rcases List.mem_append.mp hd with hd | hd
        · exact hbank d hd
        · rw [List.mem_singleton.mp hd]; exact hvgood
    obtain ⟨bank2, c2, h2⟩ := ih cm bankm hgood2
    exact ⟨bank2, c2, by rw [quizLoop, hm]; exact h2⟩

/-- C1 (counterexample): a decoded output consisting of a `question` field
alone — no choices, no answer, no explanation — passes `validate_question`
and is stored in the returned bank, so the claimed full well-formedness of
every stored question fails on the code. -/
theorem generate_quiz_stores_choiceless_question :
    generate_quiz ⟨"Biology", 1, true⟩
        (fun _ => .parsed (.obj [("question", .str "Q1")])) =
      .ok [.obj [("question", .str "Q1")]] ∧
    specWellFormedQuestion (.obj [("question", .str "Q1")]) = false :=
  ⟨rfl, rfl⟩

/-- C1 (amended): what `generate_quiz` does guarantee about every stored
question is that it is a dict whose `question` field is present and truthy
(in particular non-empty); `choices`, `answer` and `explanation` are never
inspected. -/
theorem generate_quiz_bank_entries_truthy_question :
    ∀ (gen : QuizGenerator) (backend : Nat → ParseResult) (bank : List JsonVal),
      generate_quiz gen backend = .ok bank →
      ∀ q ∈ bank, goodEntry q = true := by
  intro gen backend bank h
  unfold generate_quiz at h
  rcases hq : quizLoop gen backend gen.num_questions.toNat 0 [] with ⟨res, c2⟩
  rw [hq] at h
  have h2 : res = Except.ok bank := h
  subst h2
  exact (quizLoop_inv gen backend _ 0 [] bank c2 hq (by simp) (by simp)).1

/-- C1 (witness): the amended guarantee evaluated on a one-question run. -/
theorem generate_quiz_bank_entries_truthy_question_witness :
    goodEntry (.obj [("question", .str "Q1")]) = true :=
  generate_quiz_bank_entries_truthy_question ⟨"Biology", 1, true⟩
    (fun _ => .parsed (.obj [("question", .str "Q1")]))
    [.obj [("question", .str "Q1")]] rfl _ (List.mem_singleton.mpr rfl)

/-- C2 (counterexample): a decoded output that is valid JSON but violates
the schema by lacking a `question` key makes `validate_question` raise
`KeyError`, which `generate_quiz` does not catch: the per-attempt schema
failure escapes to the caller as an exception. -/
theorem generate_quiz_keyerror_escapes :
    generate_quiz ⟨"Biology", 1, true⟩
        (fun _ => .parsed (.obj [("answer", .str "A")])) =
      .error (.keyError "question") :=
  rfl

/-- C2 (amended): malformed JSON, falsy decoded values and candidates
carrying a `question` key (duplicates included) are all digested by the
retry loop without an exception reaching the caller; only truthy decoded
values without a readable `question` key raise, besides the fatal
construction error and the missing-vectorstore error. -/
theorem generate_quiz_ok_of_benign :
    ∀ (gen : QuizGenerator) (backend : Nat → ParseResult),
      gen.hasVectorstore = true →
      (∀ k, benignOutput (backend k) = true) →
      ∃ bank, generate_quiz gen backend = .ok bank := by
  intro gen backend hvs hben
  obtain ⟨bank2, c2, h⟩ :=
    quizLoop_noerror gen backend hvs hben gen.num_questions.toNat 0 [] (by simp)
  exact ⟨bank2, by unfold generate_quiz; rw [h]⟩

/-- C2 (witness): a run whose every output fails to decode ends without an
exception. -/
theorem generate_quiz_ok_of_benign_witness :
    ∃ bank, generate_quiz ⟨"Biology", 1, true⟩ (fun _ => .malformed) = .ok bank :=
  generate_quiz_ok_of_benign ⟨"Biology", 1, true⟩ (fun _ => .malformed) rfl
    (fun _ => rfl)

/-- C3 (counterexample): `num_questions = 0` lies outside the claimed
accepted range [1,10], yet construction succeeds. -/
theorem init_accepts_zero_questions :
    QuizGenerator.init (some "Biology") 0 true = .ok ⟨"Biology", 0, true⟩ ∧
    ¬ (1 ≤ (0 : Int)) :=
  ⟨rfl, by decide⟩

/-- C3 (amended): construction fails with the configuration error exactly
for counts above 10; every count at most 10 — zero and negative counts
included — is accepted. -/
theorem init_ok_iff_le_ten :
    ∀ (topic : Option String) (n : Int) (vs : Bool),
      (∃ gen, QuizGenerator.init topic n vs = .ok gen) ↔ n ≤ 10 := by
  intro topic n vs
  unfold QuizGenerator.init
  by_cases h : n > 10
  · rw [if_pos h]
    constructor
    · rintro ⟨gen, hgen⟩; cases hgen
    · intro hle; omega
  · rw [if_neg h]
    constructor
    · intro _; omega
    · intro _; exact ⟨_, rfl⟩

/-- C3 (witness): the boundary count 10 is accepted. -/
theorem init_ok_iff_le_ten_witness :
    (∃ gen, QuizGenerator.init (some "Biology") 10 true = .ok gen) ↔ (10 : Int) ≤ 10 :=
  init_ok_iff_le_ten (some "Biology") 10 true

/-- C4: any bank returned by `generate_quiz` has pairwise distinct
`question` texts, compared by exact structural (for strings,
case-sensitive) equality with no normalization. -/
theorem generate_quiz_unique_texts :
    ∀ (gen : QuizGenerator) (backend : Nat → ParseResult) (bank : List JsonVal),
      generate_quiz gen backend = .ok bank →
      bank.Pairwise (fun a b => qtext a ≠ qtext b) := by
  intro gen backend bank h
  unfold generate_quiz at h
  rcases hq : quizLoop gen backend gen.num_questions.toNat 0 [] with ⟨res, c2⟩
  rw [hq] at h
  have h2 : res = Except.ok bank := h
  subst h2
  exact (quizLoop_inv gen backend _ 0 [] bank c2 hq (by simp) (by simp)).2.1

/-- C4 (witness): a two-question run yields two distinct texts. -/
theorem generate_quiz_unique_texts_witness :
    List.Pairwise (fun a b => qtext a ≠ qtext b)
      [JsonVal.obj [("question", JsonVal.str "Q0")],
       JsonVal.obj [("question", JsonVal.str "Q1")]] :=
  generate_quiz_unique_texts ⟨"Biology", 2, true⟩
    (fun k => .parsed (.obj [("question", .str (if k == 0 then "Q0" else "Q1"))]))
    [JsonVal.obj [("question", JsonVal.str "Q0")],
     JsonVal.obj [("question", JsonVal.str "Q1")]] rfl

/-- C5: for every accepted configuration with count in [1,10], a completed
run returns at most that many questions. -/
theorem generate_quiz_bank_length_le :
    ∀ (gen : QuizGenerator) (backend : Nat → ParseResult) (bank : List JsonVal),
      1 ≤ gen.num_questions → gen.num_questions ≤ 10 →
      generate_quiz gen backend = .ok bank →
      (bank.length : Int) ≤ gen.num_questions := by
  intro gen backend bank h1 h10 h
  unfold generate_quiz at h
  rcases hq : quizLoop gen backend gen.num_questions.toNat 0 [] with ⟨res, c2⟩
  rw [hq] at h
  have h2 : res = Except.ok bank := h
  subst h2
  have hlen := (quizLoop_inv gen backend _ 0 [] bank c2 hq (by simp) (by simp)).2.2
  simp only [List.length_nil] at hlen
  omega

/-- C5 (witness): a run whose outputs never decode returns the empty bank,
within the requested bound. -/
theorem generate_quiz_bank_length_le_witness :
    (([] : List JsonVal).length : Int) ≤ 1 :=
  generate_quiz_bank_length_le ⟨"Biology", 1, true⟩ (fun _ => .malformed) []
    (by decide) (by decide) rfl

/-- C6: with no vectorstore bound and at least one slot to fill, the first
generation attempt raises the missing-vectorstore `ValueError`, nothing
catches or retries it, no backend call is made, and the run never
completes with a bank. -/
theorem generate_quiz_not_ready_fatal :
    ∀ (gen : QuizGenerator) (backend : Nat → ParseResult),
      gen.hasVectorstore = false → 1 ≤ gen.num_questions →
      generate_quiz gen backend = .error (.valueError "vectorstore not provided") ∧
        generate_quiz_calls gen backend = 0 := by
  intro gen backend hvs hn
  have hslot : ∀ (counter : Nat) (bank : List JsonVal),
      slotLoop gen backend 10 counter bank =
        (.error (.valueError "vectorstore not provided"), counter) := by
    intro counter bank
    rw [show (10 : Nat) = 9 + 1 from rfl, slotLoop]
    simp [generate_question_with_vectorstore, hvs]
  obtain ⟨m, hm⟩ : ∃ m, gen.num_questions.toNat = m + 1 :=
    ⟨gen.num_questions.toNat - 1, by omega⟩
  constructor
  · unfold generate_quiz
    rw [hm, quizLoop, hslot]
  · unfold generate_quiz_calls
    rw [hm, quizLoop, hslot]

/-- C6 (witness): a one-question run without a vectorstore aborts with the
fatal error and zero backend calls. -/
theorem generate_quiz_not_ready_fatal_witness :
    generate_quiz ⟨"Biology", 1, false⟩ (fun _ => .malformed) =
      .error (.valueError "vectorstore not provided") ∧
    generate_quiz_calls ⟨"Biology", 1, false⟩ (fun _ => .malformed) = 0 :=
  generate_quiz_not_ready_fatal ⟨"Biology", 1, false⟩ (fun _ => .malformed) rfl
    (by decide)

/-- C7: a slot performs at most 10 attempts, and a full run invokes the
generation chain at most `num_questions` times 10; the loops are total
functions, so a run always terminates. -/
theorem generate_quiz_call_bound :
    ∀ (gen : QuizGenerator) (backend : Nat → ParseResult),
      generate_quiz_calls gen backend ≤ 10 * gen.num_questions.toNat ∧
      ∀ (counter : Nat) (bank : List JsonVal),
        (slotLoop gen backend 10 counter bank).2 ≤ counter + 10 := by
  intro gen backend
  constructor
  · unfold generate_quiz_calls
    rcases hq : quizLoop gen backend gen.num_questions.toNat 0 [] with ⟨res, c2⟩
    have := quizLoop_counter gen backend _ 0 [] res c2 hq
    show c2 ≤ 10 * gen.num_questions.toNat
    omega
  · intro counter bank
    rcases hs : slotLoop gen backend 10 counter bank with ⟨res, c2⟩
    have := slotLoop_counter gen backend 10 counter bank res c2 hs
    show c2 ≤ counter + 10
    omega

/-- C7 (witness): the call bound evaluated on a one-question run. -/
theorem generate_quiz_call_bound_witness :
    generate_quiz_calls ⟨"Biology", 1, true⟩ (fun _ => .malformed) ≤
      10 * (1 : Int).toNat :=
  (generate_quiz_call_bound ⟨"Biology", 1, true⟩ (fun _ => .malformed)).1

/-- C8: the reduction `index_at` is idempotent for positive totals, and
`get_question_at_index` applied to an already-reduced index selects the
same question. -/
theorem index_at_idempotent :
    (∀ i t : Int, 0 < t →
      QuizManager.index_at (QuizManager.index_at i t) t =
        QuizManager.index_at i t) ∧
    (∀ (qs : List JsonVal) (i : Int), qs ≠ [] →
      QuizManager.get_question_at_index qs
          (QuizManager.index_at i (qs.length : Int)) =
        QuizManager.get_question_at_index qs i) := by
  have hidem : ∀ i t : Int,
      QuizManager.index_at (QuizManager.index_at i t) t =
        QuizManager.index_at i t := by
    intro i t
    unfold QuizManager.index_at
    exact Int.emod_emod_of_dvd i dvd_rfl
  refine ⟨fun i t _ => hidem i t, ?_⟩
  intro qs i hqs
  have hlen : qs.length ≠ 0 := fun h0 => hqs (List.length_eq_zero.mp h0)
  unfold QuizManager.get_question_at_index
  rw [if_neg hlen, if_neg hlen, hidem]

/-- C8 (witness): idempotence and stability evaluated on a concrete index
and bank. -/
theorem index_at_idempotent_witness :
    QuizManager.index_at (QuizManager.index_at 7 3) 3 = QuizManager.index_at 7 3 ∧
    QuizManager.get_question_at_index [JsonVal.null]
        (QuizManager.index_at 5 (([JsonVal.null] : List JsonVal).length : Int)) =
      QuizManager.get_question_at_index [JsonVal.null] 5 :=
  ⟨index_at_idempotent.1 7 3 (by decide),
   index_at_idempotent.2 [JsonVal.null] 5 (by decide)⟩

/-- C9: for a positive total, advancing by one from the last index wraps
to 0, and advancing by minus one from 0 wraps to the last index. -/
theorem next_question_index_wraparound :
    ∀ t : Int, 0 < t →
      QuizManager.next_question_index t (t - 1) 1 = 0 ∧
      QuizManager.next_question_index t 0 (-1) = t - 1 := by
  intro t ht
  unfold QuizManager.next_question_index
  constructor
  · rw [show t - 1 + 1 = t by ring, Int.emod_self]
  · have hmod : (t - 1) % t = (-1) % t := by
      conv_lhs => rw [show t - 1 = -1 + t * 1 by ring]
      rw [Int.add_mul_emod_self_left]
    rw [show (0 : Int) + -1 = -1 by ring, ← hmod]
    exact Int.emod_eq_of_lt (by omega) (by omega)

/-- C9 (witness): wraparound evaluated at a bank of four questions. -/
theorem next_question_index_wraparound_witness :
    QuizManager.next_question_index 4 3 1 = 0 ∧
    QuizManager.next_question_index 4 0 (-1) = 3 :=
  next_question_index_wraparound 4 (by decide)

/-- C10: over a bank whose entries all carry truthy question texts,
`validate_question` accepts exactly the candidates whose own question text
is truthy and equal to no stored text, and rejects any candidate with a
falsy text (the empty string included) without even scanning the bank. -/
theorem validate_question_spec :
    ∀ (bank : List JsonVal) (q t : JsonVal),
      (∀ d ∈ bank, goodEntry d = true) →
      getItem q "question" = .ok t →
      ((validate_question bank q = .ok true ↔
          (truthy t = true ∧ ∀ d ∈ bank, qtext d ≠ some t)) ∧
        (truthy t = false → validate_question bank q = .ok false)) := by
  intro bank q t hbank hq
  have hq2 : qtext q = some t := by unfold qtext; rw [hq]
  constructor
  · constructor
    · intro h
      obtain ⟨t2, hg2, ht2, hall⟩ := validate_question_ok_true h
      rw [hq] at hg2
      cases hg2
      refine ⟨ht2, fun d hd => ?_⟩
      obtain ⟨td, hgd, hne⟩ := hall d hd
      unfold qtext
      rw [hgd]
      simp [hne]
    · rintro ⟨ht, hall⟩
      unfold validate_question
      rw [hq]
      show (if truthy t = true then bankScan bank t else Except.ok false) =
        Except.ok true
      rw [if_pos ht]
      refine bankScan_ok_of fun d hd => ?_
      have hgood := hbank d hd
      unfold goodEntry at hgood
      cases hgd : getItem d "question" with
      | error e => rw [hgd] at hgood; cases hgood
      | ok td =>
        refine ⟨td, rfl, fun he => ?_⟩
        have : qtext d = some t := by unfold qtext; rw [hgd, he]
        exact hall d hd this
  · intro ht
    unfold validate_question
    rw [hq]
    show (if truthy t = true then bankScan bank t else Except.ok false) =
      Except.ok false
    rw [if_neg (by simp [ht])]

/-- C10 (witness): the acceptance condition evaluated on a one-entry bank
and a fresh candidate. -/
theorem validate_question_spec_witness :
    ((validate_question [JsonVal.obj [("question", JsonVal.str "A")]]
          (JsonVal.obj [("question", JsonVal.str "B")]) = .ok true ↔
        (truthy (JsonVal.str "B") = true ∧
          ∀ d ∈ [JsonVal.obj [("question", JsonVal.str "A")]],
            qtext d ≠ some (JsonVal.str "B"))) ∧
      (truthy (JsonVal.str "B") = false →
        validate_question [JsonVal.obj [("question", JsonVal.str "A")]]
            (JsonVal.obj [("question", JsonVal.str "B")]) = .ok false)) :=
  validate_question_spec [JsonVal.obj [("question", JsonVal.str "A")]]
    (JsonVal.obj [("question", JsonVal.str "B")]) (JsonVal.str "B")
    (by decide) rfl
